import Mathlib

/-!
Shallow embedding of `yahoo_fantasy_api/yhandler.py`.

The module wraps an injected authenticated HTTP session (`self.sc.session`)
and builds Yahoo Fantasy Sports API request paths.  We model:

* parsed JSON documents (`Json`), as returned by `response.json()`;
* Python `json.dumps` with its default separators (`Json.dumps`);
* the Python membership test `"error" in jresp` (`pyContains`), which is
  key membership on a dict, element membership on a list, substring
  containment on a string, and a `TypeError` on other values;
* HTTP responses (`Response`) and the injected session (`Session`) as a
  map from request data to responses;
* every method of class `YHandler`, with exceptions modelled by
  `Except PyError`.
-/

/-- A parsed JSON document, the possible results of `response.json()`.
Numbers are modelled as integers (no claim depends on floats). -/
inductive Json where
  | null : Json
  | bool (b : Bool) : Json
  | num (n : Int) : Json
  | str (s : String) : Json
  | arr (elems : List Json) : Json
  | obj (entries : List (String × Json)) : Json

/-- Hex digit for a value below 16. -/
def hexDigit (n : Nat) : Char :=
  if n < 10 then Char.ofNat (48 + n) else Char.ofNat (87 + (n - 10))

/-- Four-digit lowercase hex rendering used by the `\uXXXX` escapes of
`json.dumps` (default `ensure_ascii=True`). -/
def hex4 (n : Nat) : String :=
  String.mk [hexDigit (n / 4096 % 16), hexDigit (n / 256 % 16),
             hexDigit (n / 16 % 16), hexDigit (n % 16)]

/-- Escaping of one character inside a JSON string literal, following
`json.dumps` defaults. -/
def jsonEscapeChar (c : Char) : List Char :=
  if c = '"' then ['\\', '"']
  else if c = '\\' then ['\\', '\\']
  else if c = '\n' then ['\\', 'n']
  else if c = '\t' then ['\\', 't']
  else if c = '\r' then ['\\', 'r']
  else if c.toNat < 32 || 126 < c.toNat then '\\' :: 'u' :: (hex4 c.toNat).data
  else [c]

/-- Body of a `json.dumps` string literal. -/
def jsonEscape (s : String) : String :=
  String.mk (s.data.flatMap jsonEscapeChar)

/-- A `json.dumps` string literal, quotes included. -/
def jsonQuote (s : String) : String :=
  "\"" ++ jsonEscape s ++ "\""

mutual

/-- Model of Python `json.dumps` with its default separators
(`", "` between items, `": "` after a key). -/
def Json.dumps : Json → String
  | .null => "null"
  | .bool true => "true"
  | .bool false => "false"
  | .num n => toString n
  | .str s => jsonQuote s
  | .arr xs => "[" ++ Json.dumpsList xs ++ "]"
  | .obj kvs => "\x7b" ++ Json.dumpsObj kvs ++ "\x7d"

/-- Rendering by `json.dumps` of the comma-separated items of a JSON array. -/
def Json.dumpsList : List Json → String
  | [] => ""
  | [x] => Json.dumps x
  | x :: y :: xs => Json.dumps x ++ ", " ++ Json.dumpsList (y :: xs)

/-- Rendering by `json.dumps` of the comma-separated entries of a JSON object. -/
def Json.dumpsObj : List (String × Json) → String
  | [] => ""
  | [(k, v)] => jsonQuote k ++ ": " ++ Json.dumps v
  | (k, v) :: e :: kvs => jsonQuote k ++ ": " ++ Json.dumps v ++ ", " ++ Json.dumpsObj (e :: kvs)

end

/-- Bool-valued: the first list starts with the second..., i.e. `needle`
is an initial segment of the other list. -/
def charsStartWith : List Char → List Char → Bool
  | [], _ => true
  | _ :: _, [] => false
  | a :: as, b :: bs => a == b && charsStartWith as bs

/-- Bool-valued substring containment on character lists, the semantics of
Python `needle in s` for strings. -/
def charsHaveSub (needle : List Char) : List Char → Bool
  | [] => needle.isEmpty
  | c :: cs => charsStartWith needle (c :: cs) || charsHaveSub needle cs

/-- Python membership `needle in jresp` for a string `needle` and a value
parsed from JSON: key membership on a dict, element membership (string
equality) on a list, substring containment on a string; `none` models the
`TypeError` raised on numbers, booleans and `None`. -/
def pyContains (needle : String) : Json → Option Bool
  | .obj kvs => some (kvs.any (fun kv => kv.fst == needle))
  | .arr xs => some (xs.any (fun j => match j with
      | .str s => s == needle
      | _ => false))
  | .str s => some (charsHaveSub needle.data s.data)
  | _ => none

/-- Errors a `YHandler` call can raise: the `RuntimeError` the code raises
explicitly, or the `TypeError` from a membership test on a non-container. -/
inductive PyError where
  | runtimeError (msg : String) : PyError
  | typeError : PyError

/-- Whether an error is the generic runtime failure (`RuntimeError`). -/
def PyError.isRuntimeError : PyError → Bool
  | .runtimeError _ => true
  | .typeError => false

/-- An HTTP response as seen through the `requests` interface:
`status_code`, the raw body (`content`), and the body as parsed by
`response.json()`. -/
structure Response where
  status_code : Nat
  content : String
  jsonBody : Json

/-- The injected authenticated session `self.sc.session`, modelled as maps
from request data (URL, query params / payload / headers) to the response. -/
structure Session where
  getResp : String → List (String × String) → Response
  putResp : String → String → List (String × String) → Response
  postResp : String → String → List (String × String) → Response

/-- Constant `YAHOO_ENDPOINT` from `yhandler.py`. -/
def YAHOO_ENDPOINT : String := "https://fantasysports.yahooapis.com/fantasy/v2"

/-- Method `YHandler.get`: GET `{YAHOO_ENDPOINT}/{uri}` with `format=json`,
parse the body as JSON, raise `RuntimeError(json.dumps(jresp))` when
`"error" in jresp`, return the parsed JSON otherwise. -/
def YHandler.get (sc : Session) (uri : String) : Except PyError Json :=
  let response := sc.getResp (YAHOO_ENDPOINT ++ "/" ++ uri) [("format", "json")]
  let jresp := response.jsonBody
  match pyContains "error" jresp with
  | none => Except.error PyError.typeError
  | some true => Except.error (PyError.runtimeError (Json.dumps jresp))
  | some false => Except.ok jresp

/-- Method `YHandler.put`: PUT the payload with an `application/xml` content type,
raise `RuntimeError(response.content)` unless the status code is 200,
return the raw response otherwise. -/
def YHandler.put (sc : Session) (uri : String) (data : String) : Except PyError Response :=
  let headers := [("Content-Type", "application/xml")]
  let response := sc.putResp (YAHOO_ENDPOINT ++ "/" ++ uri) data headers
  if response.status_code ≠ 200 then Except.error (PyError.runtimeError response.content)
  else Except.ok response

/-- Method `YHandler.post`: POST the payload with an `application/xml` content
type, raise `RuntimeError(response.content)` unless the status code is 201,
return the raw response otherwise. -/
def YHandler.post (sc : Session) (uri : String) (data : String) : Except PyError Response :=
  let headers := [("Content-Type", "application/xml")]
  let response := sc.postResp (YAHOO_ENDPOINT ++ "/" ++ uri) data headers
  if response.status_code ≠ 201 then Except.error (PyError.runtimeError response.content)
  else Except.ok response

/-- Outcome of `YHandler.get` as a function of the response the session
produced for the request. -/
def getOutcome (response : Response) : Except PyError Json :=
  match pyContains "error" response.jsonBody with
  | none => Except.error PyError.typeError
  | some true => Except.error (PyError.runtimeError (Json.dumps response.jsonBody))
  | some false => Except.ok response.jsonBody

/-- Outcome of `YHandler.put` as a function of the response the session
produced for the request. -/
def putOutcome (response : Response) : Except PyError Response :=
  if response.status_code ≠ 200 then Except.error (PyError.runtimeError response.content)
  else Except.ok response

/-- Outcome of `YHandler.post` as a function of the response the session
produced for the request. -/
def postOutcome (response : Response) : Except PyError Response :=
  if response.status_code ≠ 201 then Except.error (PyError.runtimeError response.content)
  else Except.ok response

/-- A calendar day, the relevant content of a Python `datetime.date`. -/
structure Date where
  year : Nat
  month : Nat
  day : Nat

/-- Left-pad a numeral with zeros to the given width. -/
def zpad (width : Nat) (s : String) : String :=
  String.mk (List.replicate (width - s.length) '0') ++ s

/-- Model of `day.strftime("%Y-%m-%d")`: the ISO rendering of a date. -/
def Date.strftimeYmd (d : Date) : String :=
  zpad 4 (Nat.repr d.year) ++ "-" ++ zpad 2 (Nat.repr d.month) ++ "-" ++ zpad 2 (Nat.repr d.day)

/-- Python `s.find(needle)` for a single-character needle: index of the
first occurrence, `-1` when absent.  Helper recursion on the characters. -/
def pyFindAux (c : Char) : List Char → Option Nat
  | [] => none
  | x :: xs => if x = c then some 0 else (pyFindAux c xs).map (· + 1)

/-- Python `s.find(c)`. -/
def pyFind (s : String) (c : Char) : Int :=
  match pyFindAux c s.data with
  | some i => (i : Int)
  | none => -1

/-- Python slice `s[0:stop]` with an `Int` stop index: a negative stop
counts from the end, and the result is clamped to the string. -/
def pySlice0 (s : String) (stop : Int) : String :=
  let n : Int := (s.data.length : Int)
  let stop2 : Int := if stop < 0 then max 0 (n + stop) else min stop n
  String.mk (s.data.take stop2.toNat)

/-- Method `YHandler.get_teams_raw`. -/
def YHandler.get_teams_raw (sc : Session) : Except PyError Json :=
  YHandler.get sc "users;use_login=1/games/teams"

/-- Method `YHandler.get_standings_raw`. -/
def YHandler.get_standings_raw (sc : Session) (league_id : String) : Except PyError Json :=
  YHandler.get sc ("league/" ++ league_id ++ "/standings")

/-- Method `YHandler.get_settings_raw`. -/
def YHandler.get_settings_raw (sc : Session) (league_id : String) : Except PyError Json :=
  YHandler.get sc ("league/" ++ league_id ++ "/settings")

/-- Method `YHandler.get_matchup_raw`. -/
def YHandler.get_matchup_raw (sc : Session) (team_key : String) (week : Int) :
    Except PyError Json :=
  YHandler.get sc ("team/" ++ team_key ++ "/matchups;weeks=" ++ toString week)

/-- Method `YHandler.get_roster_raw`: request a roster, for a week when `week` is
not `None`, else for a day when `day` is not `None`, else the current one. -/
def YHandler.get_roster_raw (sc : Session) (team_key : String)
    (week : Option Int) (day : Option Date) : Except PyError Json :=
  let param :=
    match week with
    | some w => ";week=" ++ toString w
    | none =>
      match day with
      | some d => ";date=" ++ d.strftimeYmd
      | none => ""
  YHandler.get sc ("team/" ++ team_key ++ "/roster" ++ param)

/-- Method `YHandler.get_scoreboard_raw`. -/
def YHandler.get_scoreboard_raw (sc : Session) (league_id : String)
    (week : Option Int) : Except PyError Json :=
  let week_uri :=
    match week with
    | some w => ";week=" ++ toString w
    | none => ""
  YHandler.get sc ("league/" ++ league_id ++ "/scoreboard" ++ week_uri)

/-- Method `YHandler.get_players_raw`: page of 25 players with a status filter and
an optional position filter. -/
def YHandler.get_players_raw (sc : Session) (league_id : String) (start : Int)
    (status : String) (position : Option String) : Except PyError Json :=
  let pos_parm :=
    match position with
    | none => ""
    | some p => ";position=" ++ p
  YHandler.get sc ("league/" ++ league_id ++ "/players;start=" ++ toString start ++
    ";count=25;status=" ++ status ++ pos_parm ++ "/percent_owned")

/-- Method `YHandler.get_player_raw`: player detail by name; with `None` the stats
segment is empty and the path ends in a slash. -/
def YHandler.get_player_raw (sc : Session) (league_id : String)
    (player_name : Option String) : Except PyError Json :=
  let player_stat_uri :=
    match player_name with
    | some n => "players;search=" ++ n ++ "/stats"
    | none => ""
  YHandler.get sc ("league/" ++ league_id ++ "/" ++ player_stat_uri)

/-- Method `YHandler.get_percent_owned_raw`: percent owned for a list of player
ids; the league prefix is `league_id[0:league_id.find(".")]` and the keys
are joined with commas. -/
def YHandler.get_percent_owned_raw (sc : Session) (league_id : String)
    (player_ids : List String) : Except PyError Json :=
  let lg_pref := pySlice0 league_id (pyFind league_id '.')
  let joined_ids := String.intercalate "," (player_ids.map (fun i => lg_pref ++ ".p." ++ i))
  YHandler.get sc ("league/" ++ league_id ++ "/players;player_keys=" ++ joined_ids ++
    "/percent_owned")

/-- Method `YHandler.put_roster`. -/
def YHandler.put_roster (sc : Session) (team_key : String) (xml : String) :
    Except PyError Response :=
  YHandler.put sc ("team/" ++ team_key ++ "/roster") xml

/-- Method `YHandler.post_transactions`. -/
def YHandler.post_transactions (sc : Session) (league_id : String) (xml : String) :
    Except PyError Response :=
  YHandler.post sc ("league/" ++ league_id ++ "/transactions") xml

/-- Second reading of the membership test, written from the words of the
specification sentence: the parsed body contains the key `"error"`.  Only a
JSON object has keys. -/
def Json.hasKey (k : String) : Json → Bool
  | .obj kvs => kvs.any (fun kv => kv.fst == k)
  | _ => false

/-- A response used where only its presence matters. -/
def blankResponse : Response :=
  { status_code := 200, content := "", jsonBody := Json.obj [] }

/-- A session whose every response is blank; used to instantiate theorems
that hold for all sessions. -/
def blankSession : Session :=
  { getResp := fun _ _ => blankResponse
    putResp := fun _ _ _ => blankResponse
    postResp := fun _ _ _ => blankResponse }

/-- A session whose GET body parses to the JSON document `"error"`: a bare
string, with no keys at all. -/
def strBodySession : Session :=
  { blankSession with
    getResp := fun _ _ =>
      { status_code := 200, content := "\"error\"", jsonBody := Json.str "error" } }

/-- A session exercising every failure path: the GET body parses to the
number 5 (so the membership test raises `TypeError`), PUT answers 500 with
body `pfail`, POST answers 404 with body `sfail`. -/
def failSession : Session :=
  { getResp := fun _ _ =>
      { status_code := 200, content := "5", jsonBody := Json.num 5 }
    putResp := fun _ _ _ =>
      { status_code := 500, content := "pfail", jsonBody := Json.null }
    postResp := fun _ _ _ =>
      { status_code := 404, content := "sfail", jsonBody := Json.null } }

/-- A session whose GET body is an object with an `error` key. -/
def errObjSession : Session :=
  { blankSession with
    getResp := fun _ _ =>
      { status_code := 200, content := "\x7b\"error\": \x7b\x7d\x7d",
        jsonBody := Json.obj [("error", Json.obj [])] } }

/-!
Helper lemmas about string concatenation and the league-id slicing, then
one theorem per claim.
-/

theorem strAppendAssoc : ∀ a b c : String, a ++ b ++ c = a ++ (b ++ c)
  | ⟨la⟩, ⟨lb⟩, ⟨lc⟩ => congrArg String.mk (List.append_assoc la lb lc)

theorem strAppendEmpty : ∀ a : String, a ++ "" = a
  | ⟨la⟩ => congrArg String.mk (List.append_nil la)

theorem pyFindAux_append (l1 l2 : List Char) (h : '.' ∉ l1) :
    pyFindAux '.' (l1 ++ '.' :: l2) = some l1.length := by
  induction l1 with
  | nil => simp [pyFindAux]
  | cons a as ih =>
    have ha : ¬ a = '.' := fun e => h (e ▸ List.mem_cons_self a as)
    have has : '.' ∉ as := fun m => h (List.mem_cons_of_mem a m)
    simp [pyFindAux, ha, ih has]

/-- On a league id of the shape `pre ++ "." ++ rest` with no dot in `pre`,
the slice `league_id[0:league_id.find(".")]` is exactly `pre`. -/
theorem lg_pref_eq (pre rest : String) (h : '.' ∉ pre.data) :
    pySlice0 (pre ++ "." ++ rest) (pyFind (pre ++ "." ++ rest) '.') = pre := by
  have hdata : (pre ++ "." ++ rest).data = pre.data ++ '.' :: rest.data := by
    simp [String.data_append]
  have hfind : pyFind (pre ++ "." ++ rest) '.' = (pre.data.length : Int) := by
    simp [pyFind, hdata, pyFindAux_append pre.data rest.data h]
  have hle : pre.data.length ≤ (pre.data ++ '.' :: rest.data).length := by
    simp
  have h0 : ¬ ((pre.data.length : Int) < 0) := by
    simp
  have hmin : min ((pre.data.length : Int)) (((pre.data ++ '.' :: rest.data).length : Int)) =
      (pre.data.length : Int) := min_eq_left (by exact_mod_cast hle)
  simp only [pySlice0, hfind, hdata, if_neg h0, hmin, Int.toNat_natCast, List.take_left]

/-- Claim C1 counterexample: a GET whose body parses to the JSON document
`"error"` — a bare string, which contains no key at all — still raises the
generic runtime failure, where the claim requires the parsed JSON to be
returned unmodified when the key `"error"` is absent. -/
theorem yget_error_key_counterexample :
    Json.hasKey "error"
      ((strBodySession.getResp
        "https://fantasysports.yahooapis.com/fantasy/v2/league/nhl.l.1/standings"
        [("format", "json")]).jsonBody) = false ∧
    YHandler.get strBodySession "league/nhl.l.1/standings" =
      Except.error (PyError.runtimeError "\"error\"") :=
  ⟨rfl, rfl⟩

/-- Claim C1 (amended): `get(uri)` parses the response body as JSON and its
outcome is decided by the Python membership test `"error" in jresp` alone,
regardless of the HTTP status code: on a JSON object the test is key
membership (as the claim stated), on an array it is element membership, on
a string it is substring containment, and on a number, boolean or null the
test itself raises a `TypeError`; when the test succeeds a generic runtime
failure carrying the `json.dumps`-serialized body is raised, and otherwise
the parsed JSON is returned unmodified. -/
theorem yget_outcome_by_membership (sc : Session) (uri : String) (b : Json)
    (hb : (sc.getResp ("https://fantasysports.yahooapis.com/fantasy/v2/" ++ uri)
      [("format", "json")]).jsonBody = b) :
    YHandler.get sc uri =
      match pyContains "error" b with
      | none => Except.error PyError.typeError
      | some true => Except.error (PyError.runtimeError (Json.dumps b))
      | some false => Except.ok b := by
  have hurl : YAHOO_ENDPOINT ++ "/" ++ uri =
      "https://fantasysports.yahooapis.com/fantasy/v2/" ++ uri := rfl
  simp only [YHandler.get, hurl, hb]

/-- Witness for the amended claim C1: a body that is an object with an
`error` key makes `get` raise the runtime failure with the serialized body. -/
theorem yget_outcome_by_membership_witness :
    YHandler.get errObjSession "game/nhl" =
      Except.error (PyError.runtimeError "\x7b\"error\": \x7b\x7d\x7d") :=
  yget_outcome_by_membership errObjSession "game/nhl" (Json.obj [("error", Json.obj [])]) rfl

/-- Claim C2: `put` succeeds, returning the raw response unparsed, exactly
when the response status code is 200, and `post` exactly when it is 201;
any other status code raises the generic runtime failure carrying the raw
response body. -/
theorem put_post_status (sc : Session) (uri dat : String) (rp rq : Response)
    (hp : sc.putResp (YAHOO_ENDPOINT ++ "/" ++ uri) dat
      [("Content-Type", "application/xml")] = rp)
    (hq : sc.postResp (YAHOO_ENDPOINT ++ "/" ++ uri) dat
      [("Content-Type", "application/xml")] = rq) :
    ((YHandler.put sc uri dat = Except.ok rp) ↔ rp.status_code = 200) ∧
    (rp.status_code ≠ 200 →
      YHandler.put sc uri dat = Except.error (PyError.runtimeError rp.content)) ∧
    ((YHandler.post sc uri dat = Except.ok rq) ↔ rq.status_code = 201) ∧
    (rq.status_code ≠ 201 →
      YHandler.post sc uri dat = Except.error (PyError.runtimeError rq.content)) := by
  have hput : YHandler.put sc uri dat = putOutcome rp := by
    simp only [YHandler.put, putOutcome, hp]
  have hpost : YHandler.post sc uri dat = postOutcome rq := by
    simp only [YHandler.post, postOutcome, hq]
  rw [hput, hpost]
  unfold putOutcome postOutcome
  by_cases h1 : rp.status_code = 200 <;> by_cases h2 : rq.status_code = 201 <;>
    simp [h1, h2]

/-- Witness for claim C2: a PUT answered with status 500 and a POST with
status 404 both fail with the runtime failure carrying the raw body; in
particular the hypotheses of `put_post_status` are satisfiable. -/
theorem put_post_status_witness :
    YHandler.put failSession "team/T1/roster" "<fantasy_content/>" =
      Except.error (PyError.runtimeError "pfail") ∧
    YHandler.post failSession "league/nhl.l.1/transactions" "<fantasy_content/>" =
      Except.error (PyError.runtimeError "sfail") :=
  ⟨(put_post_status failSession "team/T1/roster" "<fantasy_content/>"
      { status_code := 500, content := "pfail", jsonBody := Json.null }
      { status_code := 404, content := "sfail", jsonBody := Json.null }
      rfl rfl).2.1 (by decide),
   (put_post_status failSession "league/nhl.l.1/transactions" "<fantasy_content/>"
      { status_code := 500, content := "pfail", jsonBody := Json.null }
      { status_code := 404, content := "sfail", jsonBody := Json.null }
      rfl rfl).2.2.2 (by decide)⟩

/-- Claim C3: for a league id containing a dot, `get_percent_owned_raw`
derives the league prefix as the substring before the first `.`, builds
each player key as `prefix.p.id`, joins the keys with commas and requests
`league/league_id/players;player_keys=joined/percent_owned`. -/
theorem get_percent_owned_raw_path (sc : Session) (pre rest : String)
    (ids : List String) (h : '.' ∉ pre.data) :
    YHandler.get_percent_owned_raw sc (pre ++ "." ++ rest) ids =
      YHandler.get sc ("league/" ++ (pre ++ "." ++ rest) ++ "/players;player_keys=" ++
        String.intercalate "," (ids.map (fun i => pre ++ ".p." ++ i)) ++
        "/percent_owned") := by
  simp only [YHandler.get_percent_owned_raw]
  rw [lg_pref_eq pre rest h]

/-- Witness for claim C3 at the league id `nhl.l.123` with players 5 and 6. -/
theorem get_percent_owned_raw_path_witness :
    ('.' ∉ "nhl".data) ∧
    YHandler.get_percent_owned_raw blankSession "nhl.l.123" ["5", "6"] =
      YHandler.get blankSession ("league/" ++ ("nhl" ++ "." ++ "l.123") ++
        "/players;player_keys=" ++
        String.intercalate "," (["5", "6"].map (fun i => "nhl" ++ ".p." ++ i)) ++
        "/percent_owned") :=
  ⟨by decide, get_percent_owned_raw_path blankSession "nhl" "l.123" ["5", "6"] (by decide)⟩

/-- Claim C4: `get_roster_raw` requests `team/team_key/roster;week=w` when
a week is given, `team/team_key/roster;date=YYYY-MM-DD` when a day but no
week is given, and `team/team_key/roster` with no trailing segment when
neither is given. -/
theorem get_roster_raw_path (sc : Session) (team_key : String) (w : Int) (d : Date) :
    (∀ day, YHandler.get_roster_raw sc team_key (some w) day =
      YHandler.get sc ("team/" ++ team_key ++ "/roster;week=" ++ toString w)) ∧
    YHandler.get_roster_raw sc team_key none (some d) =
      YHandler.get sc ("team/" ++ team_key ++ "/roster;date=" ++ d.strftimeYmd) ∧
    YHandler.get_roster_raw sc team_key none none =
      YHandler.get sc ("team/" ++ team_key ++ "/roster") := by
  refine ⟨fun day => ?_, ?_, ?_⟩ <;>
    simp only [YHandler.get_roster_raw, strAppendAssoc, strAppendEmpty] <;> try rfl

/-- Claim C9: when both a week and a day are given, `get_roster_raw` uses
the week and ignores the day: the path carries a `;week=` segment and no
date segment. -/
theorem get_roster_raw_week_wins (sc : Session) (team_key : String) (w : Int) (d : Date) :
    YHandler.get_roster_raw sc team_key (some w) (some d) =
      YHandler.get sc ("team/" ++ team_key ++ "/roster;week=" ++ toString w) := by
  simp only [YHandler.get_roster_raw, strAppendAssoc]
  try rfl

/-- Claim C5: `get_players_raw` requests
`league/id/players;start=n;count=25;status=s;position=p/percent_owned`,
always with the fixed `;count=25` segment, and the `;position=p` segment is
omitted exactly when the position is `None`. -/
theorem get_players_raw_path (sc : Session) (league_id : String) (start : Int)
    (status : String) (p : String) :
    (YHandler.get_players_raw sc league_id start status (some p) =
      YHandler.get sc ("league/" ++ league_id ++ "/players;start=" ++ toString start ++
        ";count=25;status=" ++ status ++ ";position=" ++ p ++ "/percent_owned")) ∧
    (YHandler.get_players_raw sc league_id start status none =
      YHandler.get sc ("league/" ++ league_id ++ "/players;start=" ++ toString start ++
        ";count=25;status=" ++ status ++ "/percent_owned")) := by
  refine ⟨?_, ?_⟩ <;>
    simp only [YHandler.get_players_raw, strAppendAssoc, strAppendEmpty]

/-- Claim C6: every GET call targets the fixed HTTPS Yahoo Fantasy Sports
v2 endpoint — the full URL is the fixed prefix, a slash, then the given
path — and carries the query parameter `format=json`; the outcome is a
function of the response to exactly that request. -/
theorem yget_request_shape (sc : Session) (uri : String) :
    YAHOO_ENDPOINT = "https://fantasysports.yahooapis.com/fantasy/v2" ∧
    YHandler.get sc uri =
      getOutcome (sc.getResp (YAHOO_ENDPOINT ++ "/" ++ uri) [("format", "json")]) :=
  ⟨rfl, rfl⟩

/-- Claim C7 counterexample: a GET whose body parses to the JSON number 5
fails, but the surfaced error is the `TypeError` of the membership test —
not the generic runtime failure — so not every non-success condition
raises the same generic failure type. -/
theorem error_kind_counterexample :
    YHandler.get failSession "league/nhl.l.1/standings" = Except.error PyError.typeError ∧
    PyError.isRuntimeError PyError.typeError = false :=
  ⟨rfl, rfl⟩

/-- Claim C7 (amended): every failure raised by `put` or `post` is the
generic runtime failure carrying the raw response body, and every failure
raised by `get` is either the generic runtime failure carrying the
serialized JSON body or — only when the parsed body is a number, boolean or
null, so that the membership test itself fails — a `TypeError`; no further
classification of failures exists. -/
theorem error_kind_characterization (sc : Session) (uri dat : String) :
    (∀ e, YHandler.put sc uri dat = Except.error e →
      e = PyError.runtimeError
        ((sc.putResp (YAHOO_ENDPOINT ++ "/" ++ uri) dat
          [("Content-Type", "application/xml")]).content)) ∧
    (∀ e, YHandler.post sc uri dat = Except.error e →
      e = PyError.runtimeError
        ((sc.postResp (YAHOO_ENDPOINT ++ "/" ++ uri) dat
          [("Content-Type", "application/xml")]).content)) ∧
    (∀ e, YHandler.get sc uri = Except.error e →
      e = PyError.runtimeError
        (Json.dumps ((sc.getResp (YAHOO_ENDPOINT ++ "/" ++ uri)
          [("format", "json")]).jsonBody)) ∨
      (e = PyError.typeError ∧
        pyContains "error"
          ((sc.getResp (YAHOO_ENDPOINT ++ "/" ++ uri) [("format", "json")]).jsonBody) =
          none)) := by
  refine ⟨fun e he => ?_, fun e he => ?_, fun e he => ?_⟩
  · by_cases h : (sc.putResp (YAHOO_ENDPOINT ++ "/" ++ uri) dat
        [("Content-Type", "application/xml")]).status_code = 200
    · simp [YHandler.put, h] at he
    · simp [YHandler.put, h] at he
      exact he.symm
  · by_cases h : (sc.postResp (YAHOO_ENDPOINT ++ "/" ++ uri) dat
        [("Content-Type", "application/xml")]).status_code = 201
    · simp [YHandler.post, h] at he
    · simp [YHandler.post, h] at he
      exact he.symm
  · rcases hc : pyContains "error"
        ((sc.getResp (YAHOO_ENDPOINT ++ "/" ++ uri) [("format", "json")]).jsonBody) with
      _ | b
    · simp [YHandler.get, hc] at he
      exact Or.inr ⟨he.symm, rfl⟩
    · cases b
      · simp [YHandler.get, hc] at he
      · simp [YHandler.get, hc] at he
        exact Or.inl he.symm

/-- Witness for the amended claim C7, at a session whose PUT answers 500
with body `pfail`, whose POST answers 404 with body `sfail`, and whose GET
body parses to the number 5. -/
theorem error_kind_characterization_witness :
    PyError.runtimeError "pfail" = PyError.runtimeError "pfail" ∧
    PyError.runtimeError "sfail" = PyError.runtimeError "sfail" ∧
    (PyError.typeError = PyError.runtimeError "5" ∨
      (PyError.typeError = PyError.typeError ∧
        pyContains "error" (Json.num 5) = none)) :=
  ⟨(error_kind_characterization failSession "team/T1/roster" "<fantasy_content/>").1
      (PyError.runtimeError "pfail") rfl,
   (error_kind_characterization failSession "team/T1/roster" "<fantasy_content/>").2.1
      (PyError.runtimeError "sfail") rfl,
   (error_kind_characterization failSession "team/T1/roster" "<fantasy_content/>").2.2
      PyError.typeError rfl⟩

/-- Claim C8: both `put` and `post` send the request with the single header
`Content-Type: application/xml` and pass the caller-supplied payload string
to the session as the request body unmodified; the outcome is a function of
the response to exactly that request. -/
theorem put_post_request_shape (sc : Session) (uri dat : String) :
    YHandler.put sc uri dat =
      putOutcome (sc.putResp (YAHOO_ENDPOINT ++ "/" ++ uri) dat
        [("Content-Type", "application/xml")]) ∧
    YHandler.post sc uri dat =
      postOutcome (sc.postResp (YAHOO_ENDPOINT ++ "/" ++ uri) dat
        [("Content-Type", "application/xml")]) :=
  ⟨rfl, rfl⟩

/-- Claim C10: `get_player_raw` with `None` as the player name requests
`league/league_id/` — a trailing slash with an empty resource segment —
and with a player name requests `league/league_id/players;search=name/stats`. -/
theorem get_player_raw_path (sc : Session) (league_id : String) (player_name : String) :
    YHandler.get_player_raw sc league_id none =
      YHandler.get sc ("league/" ++ league_id ++ "/") ∧
    YHandler.get_player_raw sc league_id (some player_name) =
      YHandler.get sc ("league/" ++ league_id ++ "/players;search=" ++ player_name ++
        "/stats") := by
  constructor
  · simp only [YHandler.get_player_raw, strAppendEmpty]
  · simp only [YHandler.get_player_raw, strAppendAssoc]
    try rfl
